import Mathlib

/-!
Verification of the MVLib pose-telemetry adapter (MotionView repository).

The repository ships two alternative integration headers, both defining
`mvlib::setOdom`:

* `include/mvlib/Optional/logger_optional_ez-template.hpp` — bridges an
  EZ-Template `ez::Drive*` to the logger;
* an unnamed header bridging a LemLib `lemlib::Chassis*`.

Each header installs a zero-argument sampling closure into the logger via
`Logger::setPoseGetter`, and both are protected by the same preprocessor
mutual-exclusion guard on `_MVLIB_OPTIONAL_USED`.

Scalar fields are C++ `float`s, but the bridge performs no arithmetic on
them — every value is copied through unchanged — so we carry them as exact
rationals (`ℚ`).

Back-end pointer semantics: a `Chassis*` / `Drive*` handle is a pointer
captured by value in the closure, dereferenced anew on every invocation of
the closure against the back-end's live state.  We model a handle as
`Option Nat` (a possibly-null address) and the back-end's live state as a
heap `Nat → state`; the installed closure is a `StateM heap` computation so
that both the per-call re-reading of the state and the absence of writes
are visible in the embedding.
-/

namespace MotionView

/-- Modelled from the spec: the canonical pose value of `mvlib/core.hpp`
(the header is not part of the repository snapshot).  Spec §3: immutable
value `{x, y, heading}`, x/y in inches, heading in degrees. -/
structure Pose where
  x : ℚ
  y : ℚ
  heading : ℚ
deriving DecidableEq, Repr

/-- Modelled from the spec: the `mvlib::Logger` of `mvlib/core.hpp` (not in
the repository snapshot).  Spec §6: the logger exposes a registration point
accepting a zero-argument callable returning an optional pose; its internal
buffering/serialization state is out of scope and abstracted as a field
`internal` of arbitrary type. -/
structure Logger (σ : Type) (ρ : Type) where
  poseGetter : StateM σ (Option Pose)
  internal : ρ

/-- Modelled from the spec: `Logger::setPoseGetter` registers the sampling
callback, replacing the pose-getter slot and touching nothing else. -/
def Logger.setPoseGetter (l : Logger σ ρ) (g : StateM σ (Option Pose)) :
    Logger σ ρ :=
  { l with poseGetter := g }

/-! ## EZ-Template back end
`logger_optional_ez-template.hpp` reads, through an `ez::Drive*`:
`odom_enabled()`, `odom_x_get()` (inches), `odom_y_get()` (inches),
`odom_theta_get()` (degrees). -/

/-- The observable state of an `ez::Drive` object: the readiness flag and
the three native-unit odometry accessors read by the bridge. -/
structure EZDrive where
  odom_enabled : Bool
  odom_x_get : ℚ
  odom_y_get : ℚ
  odom_theta_get : ℚ
deriving DecidableEq, Repr

/-- The live memory holding `ez::Drive` objects, indexed by address. -/
abbrev EZHeap := Nat → EZDrive

/-- One accessor call `drive->f()` on the object at address `a`: a read of
the live heap, returning the projected field and leaving the heap alone. -/
def readEZ (a : Nat) (f : EZDrive → τ) : StateM EZHeap τ := do
  let h ← get
  return f (h a)

namespace EZ

/-- The sampling closure installed by the EZ-Template `setOdom`
(lines 16–23 of `logger_optional_ez-template.hpp`): capture the `chassis`
pointer; on every call, if it is null or `odom_enabled()` is false return
`std::nullopt`, otherwise read `odom_x_get`, `odom_y_get`,
`odom_theta_get` and return `Pose{xIn, yIn, thDeg}`. -/
def poseGetter (chassis : Option Nat) : StateM EZHeap (Option Pose) := do
  match chassis with
  | none => return none
  | some c =>
    let en ← readEZ c EZDrive.odom_enabled
    if !en then return none
    else
      let xIn ← readEZ c EZDrive.odom_x_get
      let yIn ← readEZ c EZDrive.odom_y_get
      let thDeg ← readEZ c EZDrive.odom_theta_get
      return some ⟨xIn, yIn, thDeg⟩

/-- `mvlib::setOdom(Logger&, ez::Drive*)`: registers the sampling closure
with the logger. -/
def setOdom (logger : Logger EZHeap ρ) (chassis : Option Nat) :
    Logger EZHeap ρ :=
  logger.setPoseGetter (EZ.poseGetter chassis)

end EZ

/-! ## LemLib back end
The unnamed header reads `chassis->getPose()` (a `lemlib::Pose` with
fields `x`, `y`, `theta`, already in inches/degrees). -/

/-- `lemlib::Pose`: the value returned by `Chassis::getPose()`. -/
structure LemPose where
  x : ℚ
  y : ℚ
  theta : ℚ
deriving DecidableEq, Repr

/-- The observable state of a `lemlib::Chassis` object: the pose estimate
its `getPose()` accessor currently reports. -/
structure Chassis where
  getPose : LemPose
deriving DecidableEq, Repr

/-- The live memory holding `lemlib::Chassis` objects. -/
abbrev LemHeap := Nat → Chassis

/-- The accessor call `chassis->getPose()` on the object at address `a`. -/
def readLem (a : Nat) : StateM LemHeap LemPose := do
  let h ← get
  return (h a).getPose

namespace Lem

/-- The sampling closure installed by the LemLib `setOdom` (lines 18–21 of
the unnamed header): capture the `chassis` pointer; on every call, if it is
null return `std::nullopt`, otherwise `auto p = chassis->getPose()` and
return `Pose{p.x, p.y, p.theta}`. -/
def poseGetter (chassis : Option Nat) : StateM LemHeap (Option Pose) := do
  match chassis with
  | none => return none
  | some c =>
    let p ← readLem c
    return some ⟨p.x, p.y, p.theta⟩

/-- `mvlib::setOdom(Logger&, lemlib::Chassis*)`: registers the sampling
closure with the logger. -/
def setOdom (logger : Logger LemHeap ρ) (chassis : Option Nat) :
    Logger LemHeap ρ :=
  logger.setPoseGetter (Lem.poseGetter chassis)

end Lem

/-! ## The `_MVLIB_OPTIONAL_USED` build guard
Both integration headers begin identically (lines 1–8): a `pragma once`,
then `ifdef _MVLIB_OPTIONAL_USED` guarding an `error` directive with the
message "More than one type of Logger/Optional include used!", then an
`ifndef _MVLIB_OPTIONAL_USED` block that defines the macro and the
integration's `setOdom`.

We model preprocessing a translation unit as folding header inclusions over
a build state: `#pragma once` suppresses re-inclusion of the same header;
otherwise, if the macro is already defined the `#error` fires (and the
`#ifndef` body is skipped, so the second integration binds nothing); else
the macro is defined and the header's `setOdom` becomes the active
pose-capability binding. -/

/-- The two odometry integration headers shipped by the repository. -/
inductive Integration where
  | ezTemplate
  | lemlib
deriving DecidableEq, Repr

/-- The exact `#error` message of both headers (line 4). -/
def conflictError : String :=
  "More than one type of Logger/Optional include used!"

/-- Preprocessor/build state while including Logger/Optional headers. -/
structure BuildState where
  /-- Headers already included (for `#pragma once`). -/
  included : List Integration
  /-- Whether `_MVLIB_OPTIONAL_USED` is defined. -/
  optionalUsed : Bool
  /-- Which integration's `setOdom` binding is active, if any. -/
  bound : Option Integration
  /-- `#error` diagnostics emitted so far. -/
  errors : List String
deriving DecidableEq, Repr

/-- The effect of `#include`-ing one integration header on the build
state, per lines 1–8 of the headers. -/
def includeHeader (s : BuildState) (i : Integration) : BuildState :=
  if i ∈ s.included then s
  else if s.optionalUsed then
    { s with included := i :: s.included,
             errors := s.errors ++ [conflictError] }
  else
    { s with included := i :: s.included,
             optionalUsed := true, bound := some i }

/-- Build state before any Logger/Optional header is included. -/
def initialBuild : BuildState := ⟨[], false, none, []⟩

/-- Preprocess a translation unit that includes the given sequence of
integration headers. -/
def includeAll (is : List Integration) : BuildState :=
  is.foldl includeHeader initialBuild

/-- A build succeeds iff no `#error` fired. -/
def buildSucceeds (s : BuildState) : Prop := s.errors = []

/-- A literal substring test on character lists. -/
def strStartsWith : List Char → List Char → Bool
  | _, [] => true
  | [], _ :: _ => false
  | a :: as, b :: bs => a == b && strStartsWith as bs

/-- Whether `pat` occurs as a contiguous substring of the first list. -/
def strHasSub : List Char → List Char → Bool
  | [], pat => pat.isEmpty
  | hay@(_ :: t), pat => strStartsWith hay pat || strHasSub t pat

/-- Whether a diagnostic string mentions a given name. -/
def mentions (msg name : String) : Bool :=
  strHasSub msg.toList name.toList

/-- The human-visible name of each integration. -/
def integrationName : Integration → String
  | .ezTemplate => "EZ-Template"
  | .lemlib => "LemLib"

/-- Restatement of the spec's words for C8: every diagnostic produced by a
conflicting pair of distinct integration headers names both conflicting
integrations. -/
def diagnosticNamesConflict : Prop :=
  ∀ i j, i ≠ j → ∀ msg ∈ (includeAll [i, j]).errors,
    mentions msg (integrationName i) = true ∧
    mentions msg (integrationName j) = true

/-! ## Evaluation lemmas for the two closures -/

theorem ezGetter_run_none (h : EZHeap) :
    (EZ.poseGetter none).run h = (none, h) := rfl

theorem ezGetter_run_some (c : Nat) (h : EZHeap) :
    (EZ.poseGetter (some c)).run h =
      (if (h c).odom_enabled then
         some ⟨(h c).odom_x_get, (h c).odom_y_get, (h c).odom_theta_get⟩
       else none, h) := by
  cases hE : (h c).odom_enabled <;>
    simp [EZ.poseGetter, readEZ, StateT.run, bind, StateT.bind, get, getThe,
      MonadStateOf.get, StateT.get, pure, StateT.pure, hE]

theorem lemGetter_run_none (h : LemHeap) :
    (Lem.poseGetter none).run h = (none, h) := rfl

theorem lemGetter_run_some (c : Nat) (h : LemHeap) :
    (Lem.poseGetter (some c)).run h =
      (some ⟨(h c).getPose.x, (h c).getPose.y, (h c).getPose.theta⟩, h) :=
  rfl

/-! ## Example back-end states used by the concrete witnesses -/

/-- Example logger with trivial internals whose getter slot starts empty. -/
def exLoggerEZ : Logger EZHeap Unit := ⟨pure none, ()⟩

/-- Example logger for the LemLib side. -/
def exLoggerLem : Logger LemHeap Unit := ⟨pure none, ()⟩

/-- Example heap: every `ez::Drive` reports x=10in, y=-5in, theta=90deg,
odometry enabled. -/
def exHeapEZ : EZHeap := fun _ => ⟨true, 10, -5, 90⟩

/-- Example heap where odometry is disabled but the numeric fields are
nonzero. -/
def exHeapEZoff : EZHeap := fun _ => ⟨false, 7, 8, 9⟩

/-- Example heap: every `lemlib::Chassis` reports pose (10, -5, 90). -/
def exHeapLem : LemHeap := fun _ => ⟨⟨10, -5, 90⟩⟩

/-! ## Claims -/

/-- C1: for every back-end state with a non-null source handle and
readiness holding, the capability installed by `setOdom` returns a `Pose`
whose `x`, `y`, `heading` equal the back-end's native-unit readings under
the integration's fixed conversion factor, which is the identity for both
the EZ-Template and the LemLib integration. -/
theorem C1_identity_passthrough {ρ₁ ρ₂ : Type}
    (l₁ : Logger EZHeap ρ₁) (l₂ : Logger LemHeap ρ₂)
    (ce cl : Nat) (he : EZHeap) (hl : LemHeap)
    (hen : (he ce).odom_enabled = true) :
    ((EZ.setOdom l₁ (some ce)).poseGetter).run he =
      (some ⟨(he ce).odom_x_get, (he ce).odom_y_get,
             (he ce).odom_theta_get⟩, he) ∧
    ((Lem.setOdom l₂ (some cl)).poseGetter).run hl =
      (some ⟨(hl cl).getPose.x, (hl cl).getPose.y,
             (hl cl).getPose.theta⟩, hl) := by
  constructor
  · show (EZ.poseGetter (some ce)).run he = _
    rw [ezGetter_run_some, hen]
    simp
  · exact lemGetter_run_some cl hl

/-- C1 witness: a back end reporting x=10.0in, y=-5.0in, theta=90.0deg
with readiness true yields `Pose 10 (-5) 90` through both integrations. -/
theorem C1_identity_passthrough_witness :
    ((EZ.setOdom exLoggerEZ (some 0)).poseGetter).run exHeapEZ =
      (some ⟨10, -5, 90⟩, exHeapEZ) ∧
    ((Lem.setOdom exLoggerLem (some 0)).poseGetter).run exHeapLem =
      (some ⟨10, -5, 90⟩, exHeapLem) :=
  C1_identity_passthrough exLoggerEZ exLoggerLem 0 0 exHeapEZ exHeapLem rfl

/-- C2: with a null source handle the installed capability returns
`std::nullopt` on every invocation (in particular it never returns any
`Pose`, zero-filled or otherwise), for both integrations, whatever the
back-end heap looks like. -/
theorem C2_null_handle_unavailable {ρ₁ ρ₂ : Type}
    (l₁ : Logger EZHeap ρ₁) (l₂ : Logger LemHeap ρ₂)
    (he : EZHeap) (hl : LemHeap) :
    ((EZ.setOdom l₁ none).poseGetter).run he = (none, he) ∧
    ((Lem.setOdom l₂ none).poseGetter).run hl = (none, hl) ∧
    (∀ p : Pose, (((EZ.setOdom l₁ none).poseGetter).run he).1 ≠ some p) ∧
    (∀ p : Pose, (((Lem.setOdom l₂ none).poseGetter).run hl).1 ≠ some p) :=
  ⟨rfl, rfl, fun _ => by simp [EZ.setOdom, Logger.setPoseGetter,
      ezGetter_run_none],
    fun _ => by simp [Lem.setOdom, Logger.setPoseGetter,
      lemGetter_run_none]⟩

/-- C3: with a non-null handle whose back end reports
`odom_enabled() = false`, the EZ-Template capability returns
`std::nullopt`, and this result coincides with the null-handle result,
whatever the numeric pose fields hold. -/
theorem C3_not_ready_unavailable {ρ : Type}
    (l : Logger EZHeap ρ) (c : Nat) (h : EZHeap)
    (hdis : (h c).odom_enabled = false) :
    ((EZ.setOdom l (some c)).poseGetter).run h = (none, h) ∧
    ((EZ.setOdom l (some c)).poseGetter).run h =
      ((EZ.setOdom l none).poseGetter).run h := by
  have h₁ : ((EZ.setOdom l (some c)).poseGetter).run h = (none, h) := by
    show (EZ.poseGetter (some c)).run h = _
    rw [ezGetter_run_some, hdis]
    simp
  exact ⟨h₁, by rw [h₁]; exact (ezGetter_run_none h).symm⟩

/-- C3 witness: a drive at address 0 with odometry disabled and nonzero
numeric fields samples as unavailable, exactly like a null handle. -/
theorem C3_not_ready_unavailable_witness :
    ((EZ.setOdom exLoggerEZ (some 0)).poseGetter).run exHeapEZoff =
      (none, exHeapEZoff) ∧
    ((EZ.setOdom exLoggerEZ (some 0)).poseGetter).run exHeapEZoff =
      ((EZ.setOdom exLoggerEZ none).poseGetter).run exHeapEZoff :=
  C3_not_ready_unavailable exLoggerEZ 0 exHeapEZoff rfl

/-- C5: the installed capability is deterministic and idempotent under
repeated calls with unchanged back-end state: invoking it a second time,
in the back-end state left behind by the first invocation, yields the
same result as the first (equal poses, or unavailable both times), for
both integrations. -/
theorem C5_idempotent_sampling {ρ₁ ρ₂ : Type}
    (l₁ : Logger EZHeap ρ₁) (l₂ : Logger LemHeap ρ₂)
    (ce cl : Option Nat) (he : EZHeap) (hl : LemHeap) :
    (((EZ.setOdom l₁ ce).poseGetter).run
        ((((EZ.setOdom l₁ ce).poseGetter).run he).2)).1 =
      (((EZ.setOdom l₁ ce).poseGetter).run he).1 ∧
    (((Lem.setOdom l₂ cl).poseGetter).run
        ((((Lem.setOdom l₂ cl).poseGetter).run hl).2)).1 =
      (((Lem.setOdom l₂ cl).poseGetter).run hl).1 := by
  constructor
  · show ((EZ.poseGetter ce).run (((EZ.poseGetter ce).run he).2)).1 =
      ((EZ.poseGetter ce).run he).1
    cases ce with
    | none => rfl
    | some c =>
      have hfr : ((EZ.poseGetter (some c)).run he).2 = he := by
        rw [ezGetter_run_some]
      rw [hfr]
  · show ((Lem.poseGetter cl).run (((Lem.poseGetter cl).run hl).2)).1 =
      ((Lem.poseGetter cl).run hl).1
    cases cl with
    | none => rfl
    | some c => rfl

/-- C6: every single sample is either the explicit unavailable marker
`none`, or a `Pose` all three of whose fields are populated from the
back-end's readings at call time — never a partially-filled or sentinel
value — for both integrations. -/
theorem C6_sample_total {ρ₁ ρ₂ : Type}
    (l₁ : Logger EZHeap ρ₁) (l₂ : Logger LemHeap ρ₂)
    (ce cl : Option Nat) (he : EZHeap) (hl : LemHeap) :
    ((((EZ.setOdom l₁ ce).poseGetter).run he).1 = none ∨
      ∃ a, ce = some a ∧ (he a).odom_enabled = true ∧
        (((EZ.setOdom l₁ ce).poseGetter).run he).1 =
          some ⟨(he a).odom_x_get, (he a).odom_y_get,
                (he a).odom_theta_get⟩) ∧
    ((((Lem.setOdom l₂ cl).poseGetter).run hl).1 = none ∨
      ∃ a, cl = some a ∧
        (((Lem.setOdom l₂ cl).poseGetter).run hl).1 =
          some ⟨(hl a).getPose.x, (hl a).getPose.y,
                (hl a).getPose.theta⟩) := by
  constructor
  · show ((EZ.poseGetter ce).run he).1 = none ∨ _
    cases ce with
    | none => exact Or.inl rfl
    | some c =>
      rw [ezGetter_run_some]
      cases hen : (he c).odom_enabled with
      | false => simp
      | true =>
        exact Or.inr ⟨c, rfl, hen, by
          simp [EZ.setOdom, Logger.setPoseGetter, ezGetter_run_some,
            hen]⟩
  · show ((Lem.poseGetter cl).run hl).1 = none ∨ _
    cases cl with
    | none => exact Or.inl rfl
    | some c => exact Or.inr ⟨c, rfl, rfl⟩

/-- C7: an invocation of the installed capability has no side effect on
the back end: it performs only reads, and the back-end heap after a call
is the heap before it, for both integrations and every handle. -/
theorem C7_no_backend_mutation {ρ₁ ρ₂ : Type}
    (l₁ : Logger EZHeap ρ₁) (l₂ : Logger LemHeap ρ₂)
    (ce cl : Option Nat) (he : EZHeap) (hl : LemHeap) :
    (((EZ.setOdom l₁ ce).poseGetter).run he).2 = he ∧
    (((Lem.setOdom l₂ cl).poseGetter).run hl).2 = hl := by
  constructor
  · show ((EZ.poseGetter ce).run he).2 = he
    cases ce with
    | none => rfl
    | some c => rw [ezGetter_run_some]
  · show ((Lem.poseGetter cl).run hl).2 = hl
    cases cl with
    | none => rfl
    | some c => rfl

/-- C9: neither `setOdom` dereferences the chassis handle at install time —
each is a pure function of the logger and the pointer value, with no access
to the back-end heap; its only effect on the logger is replacing the
pose-getter slot (the remaining logger state is untouched); installing with
a null handle succeeds; and the installed closure re-evaluates the
null/readiness decision on each invocation, against the captured pointer
and the heap passed at call time — for both the EZ-Template and the LemLib
integration. -/
theorem C9_install_is_registration_only {ρ₁ ρ₂ : Type}
    (l₁ : Logger EZHeap ρ₁) (l₂ : Logger LemHeap ρ₂)
    (ce cl : Option Nat) :
    (EZ.setOdom l₁ ce).internal = l₁.internal ∧
    (EZ.setOdom l₁ ce).poseGetter = EZ.poseGetter ce ∧
    (EZ.setOdom l₁ none).poseGetter = EZ.poseGetter none ∧
    (∀ h : EZHeap,
      ((EZ.setOdom l₁ ce).poseGetter).run h =
        (match ce with
         | none => none
         | some a =>
           if (h a).odom_enabled then
             some ⟨(h a).odom_x_get, (h a).odom_y_get,
                   (h a).odom_theta_get⟩
           else none, h)) ∧
    (Lem.setOdom l₂ cl).internal = l₂.internal ∧
    (Lem.setOdom l₂ cl).poseGetter = Lem.poseGetter cl ∧
    (Lem.setOdom l₂ none).poseGetter = Lem.poseGetter none ∧
    ∀ h : LemHeap,
      ((Lem.setOdom l₂ cl).poseGetter).run h =
        (match cl with
         | none => none
         | some a =>
           some ⟨(h a).getPose.x, (h a).getPose.y,
                 (h a).getPose.theta⟩, h) := by
  refine ⟨rfl, rfl, rfl, fun h => ?_, rfl, rfl, rfl, fun h => ?_⟩
  · show (EZ.poseGetter ce).run h = _
    cases ce with
    | none => rfl
    | some a => rw [ezGetter_run_some]
  · show (Lem.poseGetter cl).run h = _
    cases cl with
    | none => rfl
    | some a => rfl

/-- C10: the LemLib integration performs no readiness check — with a
non-null chassis handle every invocation returns the `Pose` built from
`getPose()`, so the result is never the unavailable marker, whatever the
back-end state is. -/
theorem C10_lemlib_no_readiness_check {ρ : Type}
    (l : Logger LemHeap ρ) (a : Nat) (h : LemHeap) :
    (((Lem.setOdom l (some a)).poseGetter).run h).1 =
      some ⟨(h a).getPose.x, (h a).getPose.y, (h a).getPose.theta⟩ ∧
    (((Lem.setOdom l (some a)).poseGetter).run h).1 ≠ none := by
  refine ⟨rfl, ?_⟩
  show ((Lem.poseGetter (some a)).run h).1 ≠ none
  rw [lemGetter_run_some]
  simp

/-! ## Build-guard invariants -/

/-- Once `_MVLIB_OPTIONAL_USED` is defined, further inclusions never
rebind the capability, never undefine the macro, and only append
diagnostics. -/
theorem foldIncl_after_used (is : List Integration) :
    ∀ s : BuildState, s.optionalUsed = true →
      (is.foldl includeHeader s).bound = s.bound ∧
      (is.foldl includeHeader s).optionalUsed = true ∧
      ((is.foldl includeHeader s).errors = [] → s.errors = []) := by
  induction is with
  | nil => exact fun s hs => ⟨rfl, hs, fun e => e⟩
  | cons i rest ih =>
    intro s hs
    simp only [List.foldl_cons]
    by_cases hmem : i ∈ s.included
    · have hstep : includeHeader s i = s := by simp [includeHeader, hmem]
      rw [hstep]
      exact ih s hs
    · have hstep : includeHeader s i =
          { s with included := i :: s.included,
                   errors := s.errors ++ [conflictError] } := by
        simp [includeHeader, hmem, hs]
      rw [hstep]
      obtain ⟨hb, hu, he⟩ := ih _ (show (BuildState.optionalUsed
        { s with included := i :: s.included,
                 errors := s.errors ++ [conflictError] }) = true from hs)
      refine ⟨hb, hu, fun hnil => ?_⟩
      have := he hnil
      simp at this

/-- From a state where the macro is defined and the header `j` has not yet
been included, any inclusion sequence containing `j` ends with at least
one diagnostic. -/
theorem foldIncl_conflict_fires (j : Integration) (is : List Integration) :
    ∀ s : BuildState, s.optionalUsed = true → j ∈ is → j ∉ s.included →
      (is.foldl includeHeader s).errors ≠ [] := by
  induction is with
  | nil => intro s _ hj _; exact absurd hj (List.not_mem_nil j)
  | cons i rest ih =>
    intro s hs hj hnot
    simp only [List.foldl_cons]
    by_cases hmem : i ∈ s.included
    · have hstep : includeHeader s i = s := by simp [includeHeader, hmem]
      rw [hstep]
      have hji : j ≠ i := fun h => hnot (h ▸ hmem)
      have hjrest : j ∈ rest := by
        rcases List.mem_cons.mp hj with h | h
        · exact absurd h hji
        · exact h
      exact ih s hs hjrest hnot
    · have hstep : includeHeader s i =
          { s with included := i :: s.included,
                   errors := s.errors ++ [conflictError] } := by
        simp [includeHeader, hmem, hs]
      rw [hstep]
      intro hnil
      have := (foldIncl_after_used rest _ (show (BuildState.optionalUsed
        { s with included := i :: s.included,
                 errors := s.errors ++ [conflictError] }) = true
          from hs)).2.2 hnil
      simp at this

/-- The first Logger/Optional header included wins the binding: for every
inclusion sequence, the active binding is exactly the head of the
sequence. -/
theorem includeAll_bound_head (is : List Integration) :
    (includeAll is).bound = is.head? := by
  cases is with
  | nil => rfl
  | cons i rest =>
    show (rest.foldl includeHeader (includeHeader initialBuild i)).bound =
      some i
    have hstep : includeHeader initialBuild i =
        ⟨[i], true, some i, []⟩ := by
      simp [includeHeader, initialBuild]
    rw [hstep]
    exact (foldIncl_after_used rest ⟨[i], true, some i, []⟩ rfl).1

/-- C4: including both distinct integration headers in one translation
unit makes the build fail (the guard's `error` directive fires before any
pose sampling can exist), and neither registration silently wins or is
silently suppressed: the binding is exactly the first header included,
never overwritten by the second. -/
theorem C4_dual_integration_rejected (is : List Integration)
    (hez : Integration.ezTemplate ∈ is)
    (hlem : Integration.lemlib ∈ is) :
    ¬ buildSucceeds (includeAll is) ∧
    (includeAll is).bound = is.head? := by
  refine ⟨?_, includeAll_bound_head is⟩
  cases is with
  | nil => exact absurd hez (List.not_mem_nil _)
  | cons i rest =>
    have hstep : includeHeader initialBuild i =
        ⟨[i], true, some i, []⟩ := by
      simp [includeHeader, initialBuild]
    show ¬ (rest.foldl includeHeader (includeHeader initialBuild i)).errors
      = []
    rw [hstep]
    obtain ⟨j, hji, hjmem⟩ : ∃ j : Integration, j ≠ i ∧ j ∈ i :: rest := by
      cases i with
      | ezTemplate => exact ⟨.lemlib, by simp, hlem⟩
      | lemlib => exact ⟨.ezTemplate, by simp, hez⟩
    have hjrest : j ∈ rest := by
      rcases List.mem_cons.mp hjmem with h | h
      · exact absurd h hji
      · exact h
    have hjnot : j ∉ ([i] : List Integration) := by simp [hji]
    exact foldIncl_conflict_fires j rest ⟨[i], true, some i, []⟩ rfl
      hjrest hjnot

/-- C4 witness: a translation unit including the EZ-Template header and
then the LemLib header fails to build, with the EZ-Template binding (the
first) still the only one active. -/
theorem C4_dual_integration_rejected_witness :
    ¬ buildSucceeds (includeAll [.ezTemplate, .lemlib]) ∧
    (includeAll [.ezTemplate, .lemlib]).bound =
      ([Integration.ezTemplate, .lemlib]).head? :=
  C4_dual_integration_rejected [.ezTemplate, .lemlib] (by decide)
    (by decide)

/-- C8 counterexample: the guard's diagnostic does not name the specific
conflicting integrations — it is the fixed string "More than one type of
Logger/Optional include used!", which mentions neither "EZ-Template" nor
"LemLib". -/
theorem C8_diagnostic_does_not_name : ¬ diagnosticNamesConflict := by
  intro hall
  have hmem : conflictError ∈
      (includeAll [Integration.ezTemplate, .lemlib]).errors := by
    simp [includeAll, includeHeader, initialBuild]
  have h := hall .ezTemplate .lemlib (by decide) conflictError hmem
  have hfalse : mentions conflictError
      (integrationName .ezTemplate) = false := by decide
  rw [hfalse] at h
  exact absurd h.1 (by simp)

/-- C8 amended: on a dual-integration build the guard emits exactly one
human-readable diagnostic, the fixed string "More than one type of
Logger/Optional include used!" — the same in either inclusion order — and
that message names neither conflicting integration. -/
theorem C8_fixed_diagnostic :
    (includeAll [Integration.ezTemplate, .lemlib]).errors =
      [conflictError] ∧
    (includeAll [Integration.lemlib, .ezTemplate]).errors =
      [conflictError] ∧
    conflictError =
      "More than one type of Logger/Optional include used!" ∧
    mentions conflictError (integrationName .ezTemplate) = false ∧
    mentions conflictError (integrationName .lemlib) = false := by
  refine ⟨?_, ?_, rfl, ?_, ?_⟩
  · simp [includeAll, includeHeader, initialBuild]
  · simp [includeAll, includeHeader, initialBuild]
  · decide
  · decide

end MotionView
